import Mathlib

/-!
Streaming XML health-data ingestion pipeline: shallow embedding

This file embeds the streaming ingestion pipeline of
`src/app/api/parse-xml/route.ts` (the `processXMLFile` promise driven by a
SAX event stream, together with the error forwarding of the `POST` handler) and
the type vocabulary of `src/types/health.ts`, and proves properties of the
embedded definitions.

Modelling conventions:
* attribute bags delivered by the SAX scanner are association lists
  `List (String × String)`; a missing attribute is `none` after lookup,
  matching a missing key (`undefined`) in the JavaScript attribute object;
* `Partial<ParsedHealthData>` values and the records pushed through the
  unchecked `as ParsedHealthData` cast are one structure whose fields are
  all `Option String` (`none` = the field was `undefined` at runtime);
* JavaScript truthiness of a `string | undefined` value (`undefined` and
  `""` are falsy, every other string truthy) is `jsTruthy`;
* a JavaScript `Date` is `Option Int`: `some t` is a date whose time value
  is the epoch integer `t`, `none` is an Invalid Date (time value `NaN`).
  `<` / `>` on dates compare time values and every comparison against `NaN`
  is false, which `jsDateLt` / `jsDateGt` capture exactly.
-/

/-- A JavaScript `Date`: `some t` holds a definite time value, `none` is an
Invalid Date (its time value is `NaN`). -/
abbrev JsDate := Option Int

/-- Decimal value of a digit string. -/
def decimalValue (cs : List Char) : Nat :=
  cs.foldl (fun n c => 10 * n + (c.toNat - 48)) 0

/-- Model of the JavaScript `new Date(string)` constructor, restricted to
what the pipeline relies on: a well-formed timestamp string denotes a
definite time value, every other string an Invalid Date. Timestamp strings
are modelled as decimal digit strings denoting their epoch value. -/
def jsDate (s : String) : JsDate :=
  if s.data ≠ [] ∧ s.data.all Char.isDigit then
    some (decimalValue s.data : Int)
  else
    none

/-- JavaScript `<` on two `Date`s: compares time values; any comparison
involving `NaN` (an Invalid Date) is false. -/
def jsDateLt : JsDate → JsDate → Bool
  | some a, some b => a < b
  | _, _ => false

/-- JavaScript `>` on two `Date`s: compares time values; any comparison
involving `NaN` (an Invalid Date) is false. -/
def jsDateGt : JsDate → JsDate → Bool
  | some a, some b => a > b
  | _, _ => false

/-- JavaScript truthiness of a `string | undefined` value: `undefined`
(`none`) and the empty string are falsy, every other string is truthy. -/
def jsTruthy : Option String → Bool
  | none => false
  | some s => s ≠ ""

/-- JavaScript `x || d` for `x : string | undefined` and a string default
`d`: used for `attrs.durationunit! || "min"`. -/
def jsOrDefault (x : Option String) (d : String) : String :=
  match x with
  | none => d
  | some s => if s = "" then d else s

/-- `HEALTH_DATA_TYPES` from `src/types/health.ts`: constant-name / type
identifier pairs. -/
def HEALTH_DATA_TYPES : List (String × String) :=
  [("STEP_COUNT", "HKQuantityTypeIdentifierStepCount"),
   ("DISTANCE_WALKING_RUNNING", "HKQuantityTypeIdentifierDistanceWalkingRunning"),
   ("ACTIVE_ENERGY_BURNED", "HKQuantityTypeIdentifierActiveEnergyBurned"),
   ("BASAL_ENERGY_BURNED", "HKQuantityTypeIdentifierBasalEnergyBurned"),
   ("HEART_RATE", "HKQuantityTypeIdentifierHeartRate"),
   ("HEART_RATE_VARIABILITY", "HKQuantityTypeIdentifierHeartRateVariabilitySDNN"),
   ("RESTING_HEART_RATE", "HKQuantityTypeIdentifierRestingHeartRate"),
   ("BODY_MASS", "HKQuantityTypeIdentifierBodyMass"),
   ("HEIGHT", "HKQuantityTypeIdentifierHeight"),
   ("BODY_MASS_INDEX", "HKQuantityTypeIdentifierBodyMassIndex"),
   ("BODY_FAT_PERCENTAGE", "HKQuantityTypeIdentifierBodyFatPercentage"),
   ("SLEEP_ANALYSIS", "HKCategoryTypeIdentifierSleepAnalysis"),
   ("BLOOD_PRESSURE_SYSTOLIC", "HKQuantityTypeIdentifierBloodPressureSystolic"),
   ("BLOOD_PRESSURE_DIASTOLIC", "HKQuantityTypeIdentifierBloodPressureDiastolic"),
   ("RESPIRATORY_RATE", "HKQuantityTypeIdentifierRespiratoryRate"),
   ("OXYGEN_SATURATION", "HKQuantityTypeIdentifierOxygenSaturation"),
   ("FLIGHTS_CLIMBED", "HKQuantityTypeIdentifierFlightsClimbed"),
   ("STAND_HOURS", "HKQuantityTypeIdentifierAppleStandHours"),
   ("EXERCISE_TIME", "HKQuantityTypeIdentifierAppleExerciseTime"),
   ("ENVIRONMENTAL_AUDIO_EXPOSURE", "HKQuantityTypeIdentifierEnvironmentalAudioExposure"),
   ("HEADPHONE_AUDIO_EXPOSURE", "HKQuantityTypeIdentifierHeadphoneAudioExposure"),
   ("MINDFUL_MINUTES", "HKCategoryTypeIdentifierMindfulSession")]

/-- `Object.values(HEALTH_DATA_TYPES)`: the recognized metric-type
identifiers (`relevantTypes` in `processXMLFile`). -/
def relevantTypes : List String := HEALTH_DATA_TYPES.map (·.2)

/-- `isRelevantType` from `processXMLFile`:
`relevantTypes.includes(type)`. -/
def isRelevantType (t : String) : Bool := relevantTypes.contains t

/-- The record date computed inside `isWithinDateRange`:
`new Date(startDate)`, where the call sites may pass a missing attribute
(`undefined`), which also yields an Invalid Date. -/
def recordDateOf : Option String → JsDate
  | some s => jsDate s
  | none => none

/-- `isWithinDateRange` from `processXMLFile`. The two filter bounds are the
variables `startDateFilter` / `endDateFilter` of the surrounding closure
(`Date | null`, so `Option JsDate`: `none` = `null`, `some d` = a `Date`
object `d`, itself possibly invalid). A `Date` object is always truthy, so
the JavaScript guards `startDateFilter && …` / `endDateFilter && …` test
only for `null`. -/
def isWithinDateRange (startDateFilter endDateFilter : Option JsDate)
    (startDate : Option String) : Bool :=
  if startDateFilter.isNone ∧ endDateFilter.isNone then
    true
  else
    let recordDate := recordDateOf startDate
    if (match startDateFilter with
        | some d => jsDateLt recordDate d
        | none => false) then
      false
    else if (match endDateFilter with
        | some d => jsDateGt recordDate d
        | none => false) then
      false
    else
      true

/-- `ParsedHealthData` from `src/types/health.ts`, as it exists at runtime
in `processXMLFile`: every field originates from an attribute lookup and may
be `undefined` (the declared interface marks `type`, `value`, `startDate`,
`endDate` as required, but the `currentRecord as ParsedHealthData` cast and
the workout pushes can place `undefined` in any field). The same structure
with all fields defaulted to `none` is `Partial<ParsedHealthData>`, whose
empty literal `{}` is the default value. -/
structure ParsedHealthData where
  type : Option String := none
  value : Option String := none
  unit : Option String := none
  startDate : Option String := none
  endDate : Option String := none
  sourceName : Option String := none
  sourceVersion : Option String := none
deriving DecidableEq

/-- A structural event delivered by the SAX scanner (`sax.createStream`
with `lowercase: true`): an opening tag with its attribute bag, or a
closing tag. -/
inductive SaxEvent where
  | opentag (name : String) (attributes : List (String × String))
  | closetag (name : String)
deriving DecidableEq

/-- `StreamingProgressUpdate` as enqueued by `processXMLFile` / `POST`: one
server-sent event. Fields mirror the `data` payload of each variant. -/
inductive Update where
  | progress (bytesProcessed totalBytes recordsProcessed : Nat)
  | record (records : List ParsedHealthData)
      (recordsProcessed bytesProcessed totalBytes : Nat)
  | complete (records : List ParsedHealthData)
      (recordsProcessed bytesProcessed totalBytes : Nat)
  | error (message : String)
deriving DecidableEq

/-- The mutable state of one `processXMLFile` run: the closure variables
`records`, `bytesProcessed`, `totalBytes`, `recordsProcessed`,
`currentRecord`, `isInRecord`, `isInWorkout`, plus the sequence of updates
enqueued on the controller so far. -/
structure ParserState where
  records : List ParsedHealthData := []
  bytesProcessed : Nat := 0
  totalBytes : Nat := 0
  recordsProcessed : Nat := 0
  currentRecord : ParsedHealthData := {}
  isInRecord : Bool := false
  isInWorkout : Bool := false
  emitted : List Update := []
deriving DecidableEq

/-- `BATCH_SIZE` from `processXMLFile`. -/
def BATCH_SIZE : Nat := 5000

/-- The `opentag` handler of `processXMLFile`. `sf` / `ef` are the
`startDateFilter` / `endDateFilter` variables of the closure. -/
def opentagStep (sf ef : Option JsDate) (s : ParserState)
    (name : String) (attributes : List (String × String)) : ParserState :=
  if name = "record" then
    let recordType := attributes.lookup "type"
    let recordStartDate := attributes.lookup "startdate"
    if !(recordType.elim false isRelevantType)
        || !(isWithinDateRange sf ef recordStartDate) then
      s
    else
      { s with
        isInRecord := true
        currentRecord :=
          { type := attributes.lookup "type"
            value := attributes.lookup "value"
            unit := attributes.lookup "unit"
            startDate := attributes.lookup "startdate"
            endDate := attributes.lookup "enddate"
            sourceName := attributes.lookup "sourcename"
            sourceVersion := attributes.lookup "sourceversion" } }
  else if name = "workout" then
    let workoutStartDate := attributes.lookup "startdate"
    if !(isWithinDateRange sf ef workoutStartDate) then
      s
    else
      { s with
        isInWorkout := true
        records := s.records ++
          [{ type := some "HKWorkout"
             value := attributes.lookup "workoutactivitytype"
             unit := some "workout"
             startDate := attributes.lookup "startdate"
             endDate := attributes.lookup "enddate"
             sourceName := attributes.lookup "sourcename"
             sourceVersion := attributes.lookup "sourceversion" }] ++
          (if jsTruthy (attributes.lookup "duration") then
            [{ type := some "HKWorkoutDuration"
               value := attributes.lookup "duration"
               unit := some (jsOrDefault (attributes.lookup "durationunit") "min")
               startDate := attributes.lookup "startdate"
               endDate := attributes.lookup "enddate"
               sourceName := attributes.lookup "sourcename"
               sourceVersion := attributes.lookup "sourceversion" }]
          else [])
        recordsProcessed := s.recordsProcessed + 1 }
  else
    s

/-- The tag-dispatch portion of the `closetag` handler (the
`record` / `workout` branches, before the batching and progress checks). -/
def closetagRecordPhase (s : ParserState) (tagName : String) : ParserState :=
  if tagName = "record" ∧ s.isInRecord then
    let s' :=
      if jsTruthy s.currentRecord.type ∧ jsTruthy s.currentRecord.value then
        { s with
          records := s.records ++ [s.currentRecord]
          recordsProcessed := s.recordsProcessed + 1 }
      else
        s
    { s' with isInRecord := false, currentRecord := {} }
  else if tagName = "workout" then
    { s with isInWorkout := false }
  else
    s

/-- The batching portion of the `closetag` handler: when `records.length`
has reached the batch bound, enqueue a `record` update carrying a copy of
the batch and clear the array. -/
def flushPhase (batchBound : Nat) (s : ParserState) : ParserState :=
  if s.records.length ≥ batchBound then
    { s with
      emitted := s.emitted ++
        [Update.record s.records s.recordsProcessed s.bytesProcessed s.totalBytes]
      records := [] }
  else
    s

/-- The progress portion of the `closetag` handler: when
`recordsProcessed % 5000 === 0`, enqueue a `progress` update. -/
def progressPhase (s : ParserState) : ParserState :=
  if s.recordsProcessed % 5000 = 0 then
    { s with
      emitted := s.emitted ++
        [Update.progress s.bytesProcessed s.totalBytes s.recordsProcessed] }
  else
    s

/-- The complete `closetag` handler: record/workout dispatch, then the batch
flush check, then the progress check. -/
def closetagStep (batchBound : Nat) (s : ParserState) (tagName : String) :
    ParserState :=
  progressPhase (flushPhase batchBound (closetagRecordPhase s tagName))

/-- One SAX event dispatched to the matching handler. -/
def step (sf ef : Option JsDate) (batchBound : Nat) (s : ParserState) :
    SaxEvent → ParserState
  | .opentag name attributes => opentagStep sf ef s name attributes
  | .closetag tagName => closetagStep batchBound s tagName

/-- The parser state after a sequence of SAX events. -/
def runEvents (sf ef : Option JsDate) (batchBound : Nat) (s : ParserState)
    (events : List SaxEvent) : ParserState :=
  events.foldl (step sf ef batchBound) s

/-- The closure state right after `statSync` succeeded: all counters zero,
`totalBytes` set to the file size. -/
def initState (totalBytes : Nat) : ParserState :=
  { totalBytes := totalBytes }

/-- The `end` handler of `processXMLFile`, minus the cleanup and
resolution: both branches enqueue one `complete` update, carrying the
remaining records (the non-empty array, or the literal empty list when
everything was already flushed — the two coincide on the record list). -/
def endPhase (s : ParserState) : ParserState :=
  if s.records.length > 0 then
    { s with
      emitted := s.emitted ++
        [Update.complete s.records s.recordsProcessed s.totalBytes s.totalBytes] }
  else
    { s with
      emitted := s.emitted ++
        [Update.complete [] s.recordsProcessed s.totalBytes s.totalBytes] }

/-- How the source of one ingestion run behaves: the `statSync` call fails; or
the scanner delivers some events and then the read stream errors; or the
scanner delivers some events and then reports malformed markup (e.g.
truncated input); or the scanner delivers all events and signals `end`. -/
inductive SourceOutcome where
  | statError (message : String)
  | readError (events : List SaxEvent) (message : String)
  | markupError (events : List SaxEvent) (message : String)
  | success (events : List SaxEvent)
deriving DecidableEq

/-- Result of `processXMLFile`: the updates it enqueued, the rejection
message when its promise rejected (`none` when it resolved), and whether
the deletion of the temporary file was performed. `unlinkAsync` is called only
inside the `end` handler; the rejection paths (stat error, read error with
its `File read error: ` prefix, parser error) leave the file in place. -/
def processXMLFile (sf ef : Option JsDate) (batchBound totalBytes : Nat) :
    SourceOutcome → List Update × Option String × Bool
  | .statError message => ([], some message, false)
  | .readError events message =>
      ((runEvents sf ef batchBound (initState totalBytes) events).emitted,
        some ("File read error: " ++ message), false)
  | .markupError events message =>
      ((runEvents sf ef batchBound (initState totalBytes) events).emitted,
        some message, false)
  | .success events =>
      ((endPhase (runEvents sf ef batchBound (initState totalBytes) events)).emitted,
        none, true)

/-- Everything the caller of `POST` observes from one ingestion session, and
whether the temporary source file was deleted. -/
structure SessionResult where
  emitted : List Update
  fileDeleted : Bool
deriving DecidableEq

/-- One ingestion session as driven by `POST`: run `processXMLFile`; when
its promise rejects, the `.catch` handler enqueues a single `error` update
and closes the stream. -/
def runSession (sf ef : Option JsDate) (batchBound totalBytes : Nat)
    (src : SourceOutcome) : SessionResult :=
  match processXMLFile sf ef batchBound totalBytes src with
  | (ups, none, deleted) => ⟨ups, deleted⟩
  | (ups, some message, deleted) => ⟨ups ++ [Update.error message], deleted⟩

/-- The records carried by one update (`record` batches and the `complete`
payload carry records; `progress` and `error` carry none). -/
def updateRecords : Update → List ParsedHealthData
  | .record rs _ _ _ => rs
  | .complete rs _ _ _ => rs
  | _ => []

/-- All records delivered across a sequence of updates, in order. -/
def deliveredRecords (ups : List Update) : List ParsedHealthData :=
  (ups.map updateRecords).flatten

/-- Whether a delivered record is one of the synthetic workout-derived
records (distinguished by their synthetic `type` tags) rather than a plain
measurement record. -/
def isWorkoutDerived (r : ParsedHealthData) : Bool :=
  r.type == some "HKWorkout" || r.type == some "HKWorkoutDuration"

/-- The number of measurement (non-workout-derived) records in a list. -/
def measurementCount (rs : List ParsedHealthData) : Nat :=
  rs.countP (fun r => !(isWorkoutDerived r))

/-- Whether, in state `s`, the event `e` is a `Closed("record")` whose
in-flight candidate has truthy (non-empty) `type` and `value` — exactly the
condition under which the `closetag` handler accepts the candidate. -/
def acceptClose (s : ParserState) : SaxEvent → Bool
  | .closetag tagName =>
      tagName == "record" && s.isInRecord &&
        jsTruthy s.currentRecord.type && jsTruthy s.currentRecord.value
  | _ => false

/-- The number of accepting `Closed("record")` events along a run. -/
def acceptedCloseCount (sf ef : Option JsDate) (batchBound : Nat) :
    ParserState → List SaxEvent → Nat
  | _, [] => 0
  | s, e :: es =>
      (if acceptClose s e then 1 else 0) +
        acceptedCloseCount sf ef batchBound (step sf ef batchBound s e) es


def isErrorUpdate : Update → Bool
  | .error _ => true
  | _ => false

def isCompleteUpdate : Update → Bool
  | .complete _ _ _ _ => true
  | _ => false

def errorCount (ups : List Update) : Nat := ups.countP isErrorUpdate

def completeCount (ups : List Update) : Nat := ups.countP isCompleteUpdate

def goodRecord (r : ParsedHealthData) : Prop :=
  isWorkoutDerived r = true ∨ ∃ t, r.type = some t ∧ isRelevantType t = true

def goodState (s : ParserState) : Prop :=
  (s.isInRecord = true → ∃ t, s.currentRecord.type = some t ∧ isRelevantType t = true) ∧
  (∀ r ∈ s.records, goodRecord r) ∧
  (∀ u ∈ s.emitted, ∀ r ∈ updateRecords u, goodRecord r)

def stateMeas (s : ParserState) : Nat :=
  measurementCount s.records + measurementCount (deliveredRecords s.emitted)

def forgetWorkoutFlag (s : ParserState) : ParserState := { s with isInWorkout := false }

def BatchInv (batchBound : Nat) (s : ParserState) : Prop :=
  s.records.length < batchBound ∧
  s.recordsProcessed % batchBound = s.records.length ∧
  (∀ rs n bp tb, Update.record rs n bp tb ∈ s.emitted → rs.length = batchBound) ∧
  (∀ rs n bp tb, Update.complete rs n bp tb ∉ s.emitted)

lemma jsDateLt_none_left (d : JsDate) : jsDateLt none d = false := by
  cases d <;> rfl

lemma jsDateGt_none_left (d : JsDate) : jsDateGt none d = false := by
  cases d <;> rfl

lemma opentagStep_emitted (sf ef : Option JsDate) (s : ParserState)
    (name : String) (attributes : List (String × String)) :
    (opentagStep sf ef s name attributes).emitted = s.emitted := by
  simp only [opentagStep]
  split_ifs <;> rfl

lemma closetagRecordPhase_emitted (s : ParserState) (tagName : String) :
    (closetagRecordPhase s tagName).emitted = s.emitted := by
  simp only [closetagRecordPhase]
  split_ifs <;> rfl

lemma countP_append_one (p : Update → Bool) (l : List Update) (u : Update) :
    (l ++ [u]).countP p = l.countP p + (if p u then 1 else 0) := by
  simp [List.countP_append, List.countP_cons]

lemma step_terminalCounts (sf ef : Option JsDate) (batchBound : Nat)
    (s : ParserState) (e : SaxEvent) :
    errorCount (step sf ef batchBound s e).emitted = errorCount s.emitted ∧
    completeCount (step sf ef batchBound s e).emitted = completeCount s.emitted := by
  cases e with
  | opentag name attributes => rw [step, opentagStep_emitted]; exact ⟨rfl, rfl⟩
  | closetag tagName =>
      rw [step]
      simp only [closetagStep, progressPhase, flushPhase]
      split_ifs <;>
        simp [errorCount, completeCount, countP_append_one,
          closetagRecordPhase_emitted, isErrorUpdate, isCompleteUpdate]

lemma runEvents_terminalCounts (sf ef : Option JsDate) (batchBound : Nat)
    (events : List SaxEvent) (s : ParserState) :
    errorCount (runEvents sf ef batchBound s events).emitted = errorCount s.emitted ∧
    completeCount (runEvents sf ef batchBound s events).emitted = completeCount s.emitted := by
  induction events generalizing s with
  | nil => exact ⟨rfl, rfl⟩
  | cons e es ih =>
      have hs := step_terminalCounts sf ef batchBound s e
      have hrest := ih (step sf ef batchBound s e)
      simp only [runEvents, List.foldl_cons] at *
      exact ⟨hrest.1.trans hs.1, hrest.2.trans hs.2⟩

lemma endPhase_counts (s : ParserState) :
    errorCount (endPhase s).emitted = errorCount s.emitted ∧
    completeCount (endPhase s).emitted = completeCount s.emitted + 1 := by
  simp only [endPhase]
  split_ifs <;>
    simp [errorCount, completeCount, countP_append_one, isErrorUpdate, isCompleteUpdate]

lemma runSession_success (sf ef : Option JsDate) (batchBound totalBytes : Nat)
    (events : List SaxEvent) :
    runSession sf ef batchBound totalBytes (SourceOutcome.success events) =
      ⟨(endPhase (runEvents sf ef batchBound (initState totalBytes) events)).emitted, true⟩ :=
  rfl

lemma runSession_markupError (sf ef : Option JsDate) (batchBound totalBytes : Nat)
    (events : List SaxEvent) (message : String) :
    runSession sf ef batchBound totalBytes (SourceOutcome.markupError events message) =
      ⟨(runEvents sf ef batchBound (initState totalBytes) events).emitted ++
        [Update.error message], false⟩ :=
  rfl

lemma runSession_readError (sf ef : Option JsDate) (batchBound totalBytes : Nat)
    (events : List SaxEvent) (message : String) :
    runSession sf ef batchBound totalBytes (SourceOutcome.readError events message) =
      ⟨(runEvents sf ef batchBound (initState totalBytes) events).emitted ++
        [Update.error ("File read error: " ++ message)], false⟩ :=
  rfl

lemma runSession_statError (sf ef : Option JsDate) (batchBound totalBytes : Nat)
    (message : String) :
    runSession sf ef batchBound totalBytes (SourceOutcome.statError message) =
      ⟨[Update.error message], false⟩ :=
  rfl

lemma relevant_isWorkoutDerived_false (r : ParsedHealthData) (t : String)
    (ht : r.type = some t) (hrel : isRelevantType t = true) :
    isWorkoutDerived r = false := by
  rw [isWorkoutDerived, ht]
  rcases eq_or_ne t "HKWorkout" with rfl | h1
  · exact absurd hrel (by decide)
  rcases eq_or_ne t "HKWorkoutDuration" with rfl | h2
  · exact absurd hrel (by decide)
  simp [h1, h2]

lemma goodState_init (totalBytes : Nat) : goodState (initState totalBytes) := by
  refine ⟨?_, ?_, ?_⟩
  · intro h; cases h
  · intro r hr; cases hr
  · intro u hu; cases hu

lemma measurementCount_append (l1 l2 : List ParsedHealthData) :
    measurementCount (l1 ++ l2) = measurementCount l1 + measurementCount l2 :=
  List.countP_append _ _ _

lemma deliveredRecords_append (l1 l2 : List Update) :
    deliveredRecords (l1 ++ l2) = deliveredRecords l1 ++ deliveredRecords l2 := by
  simp [deliveredRecords]

lemma goodState_opentag (sf ef : Option JsDate) (s : ParserState)
    (name : String) (attributes : List (String × String)) (hs : goodState s) :
    goodState (opentagStep sf ef s name attributes) ∧
    stateMeas (opentagStep sf ef s name attributes) = stateMeas s := by
  obtain ⟨hcand, hrecs, hemit⟩ := hs
  simp only [opentagStep]
  split_ifs with h1 h2 h3 h4 h5
  · exact ⟨⟨hcand, hrecs, hemit⟩, rfl⟩
  · -- accepted measurement open: the candidate is built from a relevant type
    have hrel : (attributes.lookup "type").elim false isRelevantType = true := by
      rcases h : (attributes.lookup "type").elim false isRelevantType with _ | _
      · rw [h] at h2
        simp at h2
      · rfl
    refine ⟨⟨?_, hrecs, hemit⟩, rfl⟩
    intro _
    rcases hl : attributes.lookup "type" with _ | t
    · rw [hl] at hrel
      simp [Option.elim] at hrel
    · rw [hl] at hrel
      exact ⟨t, rfl, hrel⟩
  · exact ⟨⟨hcand, hrecs, hemit⟩, rfl⟩
  · -- accepted workout open with a duration attribute: two derived records
    constructor
    · refine ⟨hcand, ?_, hemit⟩
      intro r hr
      rw [List.append_assoc, List.mem_append] at hr
      rcases hr with hr | hr
      · exact hrecs r hr
      · left
        simp only [List.singleton_append, List.mem_cons, List.not_mem_nil, or_false] at hr
        rcases hr with rfl | rfl <;> rfl
    · show measurementCount (s.records ++ _ ++ _) + _ = _
      rw [List.append_assoc, measurementCount_append]
      have h0 : measurementCount
          ([({ type := some "HKWorkout", value := attributes.lookup "workoutactivitytype",
               unit := some "workout", startDate := attributes.lookup "startdate",
               endDate := attributes.lookup "enddate",
               sourceName := attributes.lookup "sourcename",
               sourceVersion := attributes.lookup "sourceversion" } : ParsedHealthData)] ++
           [({ type := some "HKWorkoutDuration", value := attributes.lookup "duration",
               unit := some (jsOrDefault (attributes.lookup "durationunit") "min"),
               startDate := attributes.lookup "startdate",
               endDate := attributes.lookup "enddate",
               sourceName := attributes.lookup "sourcename",
               sourceVersion := attributes.lookup "sourceversion" } : ParsedHealthData)]) = 0 :=
        rfl
      rw [h0, Nat.add_zero]
      rfl
  · -- accepted workout open without a duration attribute: one derived record
    constructor
    · refine ⟨hcand, ?_, hemit⟩
      intro r hr
      rw [List.append_assoc, List.mem_append] at hr
      rcases hr with hr | hr
      · exact hrecs r hr
      · left
        simp only [List.append_nil, List.mem_singleton] at hr
        subst hr
        rfl
    · show measurementCount (s.records ++ _ ++ _) + _ = _
      rw [List.append_assoc, measurementCount_append]
      have h0 : measurementCount
          ([({ type := some "HKWorkout", value := attributes.lookup "workoutactivitytype",
               unit := some "workout", startDate := attributes.lookup "startdate",
               endDate := attributes.lookup "enddate",
               sourceName := attributes.lookup "sourcename",
               sourceVersion := attributes.lookup "sourceversion" } : ParsedHealthData)] ++
           ([] : List ParsedHealthData)) = 0 :=
        rfl
      rw [h0, Nat.add_zero]
      rfl
  · exact ⟨⟨hcand, hrecs, hemit⟩, rfl⟩

lemma goodState_flush (batchBound : Nat) (s : ParserState) (hs : goodState s) :
    goodState (flushPhase batchBound s) ∧
    stateMeas (flushPhase batchBound s) = stateMeas s := by
  obtain ⟨hcand, hrecs, hemit⟩ := hs
  simp only [flushPhase]
  split_ifs with h
  · constructor
    · refine ⟨hcand, ?_, ?_⟩
      · intro r hr
        cases hr
      · intro u hu r hr
        rw [List.mem_append] at hu
        rcases hu with hu | hu
        · exact hemit u hu r hr
        · simp only [List.mem_singleton] at hu
          subst hu
          exact hrecs r hr
    · show measurementCount [] + _ = _
      rw [deliveredRecords_append, measurementCount_append]
      have h0 : measurementCount (deliveredRecords
          [Update.record s.records s.recordsProcessed s.bytesProcessed s.totalBytes]) =
          measurementCount s.records := by
        simp [deliveredRecords, updateRecords, measurementCount]
      rw [h0]
      show 0 + (_ + _) = _
      rw [stateMeas]
      omega
  · exact ⟨⟨hcand, hrecs, hemit⟩, rfl⟩

lemma goodState_progress (s : ParserState) (hs : goodState s) :
    goodState (progressPhase s) ∧ stateMeas (progressPhase s) = stateMeas s := by
  obtain ⟨hcand, hrecs, hemit⟩ := hs
  simp only [progressPhase]
  split_ifs with h
  · constructor
    · refine ⟨hcand, hrecs, ?_⟩
      intro u hu r hr
      rw [List.mem_append] at hu
      rcases hu with hu | hu
      · exact hemit u hu r hr
      · simp only [List.mem_singleton] at hu
        subst hu
        cases hr
    · show _ + measurementCount (deliveredRecords (s.emitted ++ _)) = _
      rw [deliveredRecords_append]
      have h0 : deliveredRecords
          [Update.progress s.bytesProcessed s.totalBytes s.recordsProcessed] = [] := rfl
      rw [h0, List.append_nil]
      rfl
  · exact ⟨⟨hcand, hrecs, hemit⟩, rfl⟩

lemma goodState_closePhase (s : ParserState) (tagName : String) (hs : goodState s) :
    goodState (closetagRecordPhase s tagName) ∧
    stateMeas (closetagRecordPhase s tagName) =
      stateMeas s + (if acceptClose s (SaxEvent.closetag tagName) then 1 else 0) := by
  obtain ⟨hcand, hrecs, hemit⟩ := hs
  rcases hacc : acceptClose s (SaxEvent.closetag tagName) with _ | _
  · -- the close is not an accepting one
    simp only [Bool.false_eq_true, if_false, Nat.add_zero]
    have hnot : ¬(tagName = "record" ∧ s.isInRecord = true) ∨
        ¬(jsTruthy s.currentRecord.type = true ∧ jsTruthy s.currentRecord.value = true) := by
      by_contra hcon
      rw [not_or, not_not, not_not] at hcon
      obtain ⟨⟨ht, hin⟩, hv1, hv2⟩ := hcon
      simp [acceptClose, ht, hin, hv1, hv2] at hacc
    simp only [closetagRecordPhase]
    split_ifs with h1 h2 h3
    · rcases hnot with hn | hn
      · exact absurd h1 hn
      · exact absurd h2 hn
    · exact ⟨⟨fun hf => Bool.noConfusion hf, hrecs, hemit⟩, rfl⟩
    · exact ⟨⟨hcand, hrecs, hemit⟩, rfl⟩
    · exact ⟨⟨hcand, hrecs, hemit⟩, rfl⟩
  · -- the close accepts the in-flight candidate
    rw [if_pos rfl]
    have hconj : tagName = "record" ∧ s.isInRecord = true ∧
        jsTruthy s.currentRecord.type = true ∧ jsTruthy s.currentRecord.value = true := by
      simp only [acceptClose, Bool.and_eq_true, beq_iff_eq] at hacc
      tauto
    obtain ⟨ht, hin, hv1, hv2⟩ := hconj
    obtain ⟨t, htt, hrel⟩ := hcand hin
    simp only [closetagRecordPhase, if_pos (And.intro ht hin), if_pos (And.intro hv1 hv2)]
    constructor
    · refine ⟨fun hf => Bool.noConfusion hf, ?_, hemit⟩
      intro r hr
      rw [List.mem_append] at hr
      rcases hr with hr | hr
      · exact hrecs r hr
      · simp only [List.mem_singleton] at hr
        subst hr
        exact Or.inr ⟨t, htt, hrel⟩
    · show measurementCount (s.records ++ [s.currentRecord]) + _ = _
      rw [measurementCount_append]
      have h0 : measurementCount [s.currentRecord] = 1 := by
        rw [measurementCount, List.countP_cons,
          relevant_isWorkoutDerived_false s.currentRecord t htt hrel]
        rfl
      rw [h0]
      simp only [stateMeas]
      omega

lemma goodState_step (sf ef : Option JsDate) (batchBound : Nat) (s : ParserState)
    (e : SaxEvent) (hs : goodState s) :
    goodState (step sf ef batchBound s e) ∧
    stateMeas (step sf ef batchBound s e) =
      stateMeas s + (if acceptClose s e then 1 else 0) := by
  cases e with
  | opentag name attributes =>
      have h := goodState_opentag sf ef s name attributes hs
      refine ⟨h.1, ?_⟩
      show stateMeas (opentagStep sf ef s name attributes) = _
      rw [h.2]
      rfl
  | closetag tagName =>
      have h1 := goodState_closePhase s tagName hs
      have h2 := goodState_flush batchBound (closetagRecordPhase s tagName) h1.1
      have h3 := goodState_progress
        (flushPhase batchBound (closetagRecordPhase s tagName)) h2.1
      refine ⟨h3.1, ?_⟩
      show stateMeas (progressPhase (flushPhase batchBound (closetagRecordPhase s tagName))) = _
      rw [h3.2, h2.2, h1.2]

lemma goodState_runEvents (sf ef : Option JsDate) (batchBound : Nat)
    (events : List SaxEvent) (s : ParserState) (hs : goodState s) :
    goodState (runEvents sf ef batchBound s events) ∧
    stateMeas (runEvents sf ef batchBound s events) =
      stateMeas s + acceptedCloseCount sf ef batchBound s events := by
  induction events generalizing s with
  | nil => exact ⟨hs, rfl⟩
  | cons e es ih =>
      have hstep := goodState_step sf ef batchBound s e hs
      have hrest := ih (step sf ef batchBound s e) hstep.1
      refine ⟨?_, ?_⟩
      · show goodState (runEvents sf ef batchBound _ es)
        exact hrest.1
      · show stateMeas (runEvents sf ef batchBound _ es) = _
        rw [hrest.2, hstep.2, acceptedCloseCount]
        omega

lemma endPhase_deliveredMeas (s : ParserState) :
    measurementCount (deliveredRecords (endPhase s).emitted) = stateMeas s := by
  simp only [endPhase]
  split_ifs with h
  · rw [deliveredRecords_append, measurementCount_append]
    have h0 : measurementCount (deliveredRecords
        [Update.complete s.records s.recordsProcessed s.totalBytes s.totalBytes]) =
        measurementCount s.records := by
      simp [deliveredRecords, updateRecords, measurementCount]
    rw [h0, stateMeas]
    omega
  · rw [deliveredRecords_append, measurementCount_append]
    have hempty : s.records = [] := by
      cases hr : s.records with
      | nil => rfl
      | cons a l => rw [hr] at h; simp at h
    have h0 : measurementCount (deliveredRecords
        [Update.complete [] s.recordsProcessed s.totalBytes s.totalBytes]) = 0 := rfl
    rw [h0, stateMeas, hempty]
    simp [measurementCount]

lemma acceptClose_eq_false_of_ne (s : ParserState) (e : SaxEvent)
    (h : e ≠ SaxEvent.closetag "record") : acceptClose s e = false := by
  cases e with
  | opentag name attributes => rfl
  | closetag tagName =>
      have ht : tagName ≠ "record" := fun hh => h (by rw [hh])
      simp [acceptClose, ht]

lemma acceptedCloseCount_zero (sf ef : Option JsDate) (batchBound : Nat)
    (events : List SaxEvent) (s : ParserState)
    (h : SaxEvent.closetag "record" ∉ events) :
    acceptedCloseCount sf ef batchBound s events = 0 := by
  induction events generalizing s with
  | nil => rfl
  | cons e es ih =>
      rw [acceptedCloseCount]
      have he : e ≠ SaxEvent.closetag "record" := by
        intro hh
        exact h (hh ▸ List.mem_cons_self e es)
      rw [acceptClose_eq_false_of_ne s e he,
        ih (step sf ef batchBound s e) (fun hm => h (List.mem_cons_of_mem e hm))]
      rfl

lemma mem_deliveredRecords (r : ParsedHealthData) (ups : List Update) :
    r ∈ deliveredRecords ups ↔ ∃ u ∈ ups, r ∈ updateRecords u := by
  simp only [deliveredRecords, List.mem_flatten, List.mem_map]
  constructor
  · rintro ⟨L, ⟨u, hu, rfl⟩, hr⟩
    exact ⟨u, hu, hr⟩
  · rintro ⟨u, hu, hr⟩
    exact ⟨updateRecords u, ⟨u, hu, rfl⟩, hr⟩

lemma batchInv_init (batchBound totalBytes : Nat) (hB : 1 ≤ batchBound) :
    BatchInv batchBound (initState totalBytes) := by
  refine ⟨hB, Nat.zero_mod _, ?_, ?_⟩
  · intro rs n bp tb h
    cases h
  · intro rs n bp tb h
    cases h

lemma mod_succ_eq (c len batchBound : Nat) (hc : c % batchBound = len) :
    (c + 1) % batchBound = (len + 1) % batchBound := by
  match batchBound with
  | 0 =>
      rw [Nat.mod_zero] at hc ⊢
      rw [Nat.mod_zero, hc]
  | 1 => simp [Nat.mod_one]
  | (b + 2) =>
      rw [Nat.add_mod, hc, Nat.mod_eq_of_lt (by omega : 1 < b + 2)]

lemma batchInv_opentag (sf ef : Option JsDate) (batchBound : Nat) (s : ParserState)
    (name : String) (attributes : List (String × String))
    (hname : name ≠ "workout") (h : BatchInv batchBound s) :
    BatchInv batchBound (opentagStep sf ef s name attributes) := by
  simp only [opentagStep]
  split_ifs
  all_goals
    first
    | exact h
    | exact absurd ‹name = "workout"› hname

lemma batchInv_progress (batchBound : Nat) (s : ParserState)
    (h : BatchInv batchBound s) : BatchInv batchBound (progressPhase s) := by
  obtain ⟨hlen, hmod, hrec, hcomp⟩ := h
  simp only [progressPhase]
  split_ifs with hp
  · refine ⟨hlen, hmod, ?_, ?_⟩
    · intro rs n bp tb hm
      rw [List.mem_append] at hm
      rcases hm with hm | hm
      · exact hrec rs n bp tb hm
      · simp only [List.mem_singleton] at hm
        cases hm
    · intro rs n bp tb hm
      rw [List.mem_append] at hm
      rcases hm with hm | hm
      · exact hcomp rs n bp tb hm
      · simp only [List.mem_singleton] at hm
        cases hm
  · exact ⟨hlen, hmod, hrec, hcomp⟩

lemma batchInv_closetag (batchBound : Nat) (s : ParserState) (tagName : String)
    (h : BatchInv batchBound s) :
    BatchInv batchBound (closetagStep batchBound s tagName) := by
  obtain ⟨hlen, hmod, hrec, hcomp⟩ := h
  rw [closetagStep]
  apply batchInv_progress
  -- characterize the dispatch phase: records either unchanged or one candidate longer
  have hphase :
      ((closetagRecordPhase s tagName).records = s.records ∧
        (closetagRecordPhase s tagName).recordsProcessed = s.recordsProcessed ∧
        (closetagRecordPhase s tagName).emitted = s.emitted) ∨
      ((closetagRecordPhase s tagName).records = s.records ++ [s.currentRecord] ∧
        (closetagRecordPhase s tagName).recordsProcessed = s.recordsProcessed + 1 ∧
        (closetagRecordPhase s tagName).emitted = s.emitted) := by
    simp only [closetagRecordPhase]
    split_ifs
    · exact Or.inr ⟨rfl, rfl, rfl⟩
    · exact Or.inl ⟨rfl, rfl, rfl⟩
    · exact Or.inl ⟨rfl, rfl, rfl⟩
    · exact Or.inl ⟨rfl, rfl, rfl⟩
  set s1 := closetagRecordPhase s tagName with hs1
  rcases hphase with ⟨hr1, hp1, he1⟩ | ⟨hr1, hp1, he1⟩
  · -- nothing appended: the flush cannot fire
    simp only [flushPhase]
    rw [hr1]
    rw [if_neg (by omega : ¬ s.records.length ≥ batchBound)]
    exact ⟨by rw [hr1]; exact hlen, by rw [hp1, hr1]; exact hmod,
      by rw [he1]; exact hrec, by rw [he1]; exact hcomp⟩
  · -- the candidate was appended
    have hlen1 : s1.records.length = s.records.length + 1 := by
      rw [hr1, List.length_append, List.length_singleton]
    rcases Nat.lt_or_ge (s.records.length + 1) batchBound with hfit | hfull
    · -- still strictly below the bound: no flush
      simp only [flushPhase]
      rw [if_neg (by omega : ¬ s1.records.length ≥ batchBound)]
      refine ⟨by omega, ?_, by rw [he1]; exact hrec, by rw [he1]; exact hcomp⟩
      rw [hp1, mod_succ_eq s.recordsProcessed s.records.length batchBound hmod,
        Nat.mod_eq_of_lt hfit, hlen1]
    · -- the bound is reached exactly: flush emits a batch of exactly the bound
      have hexact : s.records.length + 1 = batchBound := by omega
      simp only [flushPhase]
      rw [if_pos (by omega : s1.records.length ≥ batchBound)]
      refine ⟨by simpa using Nat.lt_of_lt_of_le Nat.zero_lt_one (by omega), ?_, ?_, ?_⟩
      · show s1.recordsProcessed % batchBound = ([] : List ParsedHealthData).length
        rw [hp1, mod_succ_eq s.recordsProcessed s.records.length batchBound hmod,
          hexact, Nat.mod_self]
        rfl
      · intro rs n bp tb hm
        show rs.length = batchBound
        rw [he1, List.mem_append] at hm
        rcases hm with hm | hm
        · exact hrec rs n bp tb hm
        · simp only [List.mem_singleton] at hm
          cases hm
          rw [hlen1, hexact]
      · intro rs n bp tb hm
        rw [he1, List.mem_append] at hm
        rcases hm with hm | hm
        · exact hcomp rs n bp tb hm
        · simp only [List.mem_singleton] at hm
          cases hm

lemma batchInv_runEvents (sf ef : Option JsDate) (batchBound : Nat)
    (events : List SaxEvent) (s : ParserState)
    (hw : ∀ a, SaxEvent.opentag "workout" a ∉ events)
    (h : BatchInv batchBound s) :
    BatchInv batchBound (runEvents sf ef batchBound s events) := by
  induction events generalizing s with
  | nil => exact h
  | cons e es ih =>
      have hstep : BatchInv batchBound (step sf ef batchBound s e) := by
        cases e with
        | opentag name attributes =>
            have hname : name ≠ "workout" := by
              intro hn
              subst hn
              exact hw attributes (List.mem_cons_self _ _)
            exact batchInv_opentag sf ef batchBound s name attributes hname h
        | closetag tagName => exact batchInv_closetag batchBound s tagName h
      have hw' : ∀ a, SaxEvent.opentag "workout" a ∉ es := by
        intro a hm
        exact hw a (List.mem_cons_of_mem e hm)
      exact ih (step sf ef batchBound s e) hw' hstep

/-- C1 (amended): on the successful end-of-stream path the temporary source
file is deleted and exactly one terminal `complete` event (and no `error`
event) is emitted; after a markup/parse error, a source read error, or a
stat failure, the session emits exactly one `error` event and no `complete`
event, but the temporary file is NOT removed, since `unlinkAsync` is called
only inside the `end` handler. -/
theorem c1_cleanup_paths (sf ef : Option JsDate) (batchBound totalBytes : Nat)
    (events : List SaxEvent) (message : String) :
    ((runSession sf ef batchBound totalBytes (SourceOutcome.success events)).fileDeleted = true ∧
      errorCount (runSession sf ef batchBound totalBytes (SourceOutcome.success events)).emitted = 0 ∧
      completeCount (runSession sf ef batchBound totalBytes (SourceOutcome.success events)).emitted = 1) ∧
    ((runSession sf ef batchBound totalBytes (SourceOutcome.markupError events message)).fileDeleted = false ∧
      errorCount (runSession sf ef batchBound totalBytes (SourceOutcome.markupError events message)).emitted = 1 ∧
      completeCount (runSession sf ef batchBound totalBytes (SourceOutcome.markupError events message)).emitted = 0) ∧
    ((runSession sf ef batchBound totalBytes (SourceOutcome.readError events message)).fileDeleted = false ∧
      errorCount (runSession sf ef batchBound totalBytes (SourceOutcome.readError events message)).emitted = 1 ∧
      completeCount (runSession sf ef batchBound totalBytes (SourceOutcome.readError events message)).emitted = 0) ∧
    ((runSession sf ef batchBound totalBytes (SourceOutcome.statError message)).fileDeleted = false ∧
      (runSession sf ef batchBound totalBytes (SourceOutcome.statError message)).emitted =
        [Update.error message]) := by
  have hrun := runEvents_terminalCounts sf ef batchBound events (initState totalBytes)
  have hend := endPhase_counts (runEvents sf ef batchBound (initState totalBytes) events)
  refine ⟨?_, ?_, ?_, ⟨rfl, rfl⟩⟩
  · rw [runSession_success]
    refine ⟨rfl, ?_, ?_⟩
    · exact hend.1.trans hrun.1
    · rw [hend.2, hrun.2]; rfl
  · rw [runSession_markupError]
    refine ⟨rfl, ?_, ?_⟩
    · show errorCount (_ ++ [Update.error message]) = 1
      rw [errorCount, countP_append_one]
      have : (runEvents sf ef batchBound (initState totalBytes) events).emitted.countP
          isErrorUpdate = 0 := hrun.1
      rw [this]; rfl
    · show completeCount (_ ++ [Update.error message]) = 0
      rw [completeCount, countP_append_one]
      have : (runEvents sf ef batchBound (initState totalBytes) events).emitted.countP
          isCompleteUpdate = 0 := hrun.2
      rw [this]; rfl
  · rw [runSession_readError]
    refine ⟨rfl, ?_, ?_⟩
    · show errorCount (_ ++ [Update.error ("File read error: " ++ message)]) = 1
      rw [errorCount, countP_append_one]
      have : (runEvents sf ef batchBound (initState totalBytes) events).emitted.countP
          isErrorUpdate = 0 := hrun.1
      rw [this]; rfl
    · show completeCount (_ ++ [Update.error ("File read error: " ++ message)]) = 0
      rw [completeCount, countP_append_one]
      have : (runEvents sf ef batchBound (initState totalBytes) events).emitted.countP
          isCompleteUpdate = 0 := hrun.2
      rw [this]; rfl

/-- C1 counterexample: for a source truncated before any event (a markup
error), the session emits exactly one `error` event and no `complete`
event, yet the temporary artifact is NOT removed — refuting the cleanup
half of the claim. -/
theorem c1_counterexample :
    (runSession none none BATCH_SIZE 0
      (SourceOutcome.markupError [] "Unexpected end of input")).emitted =
      [Update.error "Unexpected end of input"] ∧
    (runSession none none BATCH_SIZE 0
      (SourceOutcome.markupError [] "Unexpected end of input")).fileDeleted = false := by
  decide

/-- C2 (amended): a record whose start timestamp does not parse as a valid
point in time is always INCLUDED by the date-range filter — whether or not
a window bound is set — because both exclusion comparisons against an
Invalid Date (NaN time value) are false. -/
theorem c2_unparsable_included (sf ef : Option JsDate) (sd : Option String)
    (h : recordDateOf sd = none) : isWithinDateRange sf ef sd = true := by
  cases sf <;> cases ef <;>
    simp [isWithinDateRange, h, jsDateLt_none_left, jsDateGt_none_left]

/-- C2 counterexample: with an active window bound, the filter returns
`true` (included) on an unparsable start timestamp, refuting the claimed
fail-closed exclusion. -/
theorem c2_counterexample :
    recordDateOf (some "not a timestamp") = none ∧
    isWithinDateRange (some (some 0)) none (some "not a timestamp") = true ∧
    isWithinDateRange none (some (some 100)) (some "not a timestamp") = true ∧
    isWithinDateRange (some (some 0)) (some (some 100)) (some "not a timestamp") = true := by
  decide

/-- C2 witness: the amended theorem applied to a concrete unparsable
timestamp with an active lower bound. -/
theorem c2_witness :
    isWithinDateRange (some (some 0)) none (some "not a timestamp") = true :=
  c2_unparsable_included (some (some 0)) none (some "not a timestamp") (by decide)

/-- C3 (amended): for every batch-size bound of at least one and every
input containing no workout elements, every emitted `record`-kind batch
carries exactly the bound many records, and the terminal `complete` event
carries `totalAccepted mod bound` records. (With workout elements present
the bound can be overshot, see the counterexample.) -/
theorem c3_batch_sizes (sf ef : Option JsDate) (batchBound totalBytes : Nat)
    (events : List SaxEvent) (hB : 1 ≤ batchBound)
    (hw : ∀ a, SaxEvent.opentag "workout" a ∉ events) :
    (∀ rs n bp tb, Update.record rs n bp tb ∈
        (runSession sf ef batchBound totalBytes (SourceOutcome.success events)).emitted →
      rs.length = batchBound) ∧
    (∀ rs n bp tb, Update.complete rs n bp tb ∈
        (runSession sf ef batchBound totalBytes (SourceOutcome.success events)).emitted →
      rs.length = n % batchBound) := by
  have hinv := batchInv_runEvents sf ef batchBound events (initState totalBytes) hw
    (batchInv_init batchBound totalBytes hB)
  obtain ⟨hlen, hmod, hrec, hcomp⟩ := hinv
  rw [runSession_success]
  set S := runEvents sf ef batchBound (initState totalBytes) events with hS
  constructor
  · intro rs n bp tb hm
    change Update.record rs n bp tb ∈ (endPhase S).emitted at hm
    simp only [endPhase] at hm
    split_ifs at hm <;>
      (rw [List.mem_append] at hm
       rcases hm with hm | hm
       · exact hrec rs n bp tb hm
       · simp only [List.mem_singleton] at hm
         cases hm)
  · intro rs n bp tb hm
    change Update.complete rs n bp tb ∈ (endPhase S).emitted at hm
    simp only [endPhase] at hm
    split_ifs at hm with hpos
    · rw [List.mem_append] at hm
      rcases hm with hm | hm
      · exact absurd hm (hcomp rs n bp tb)
      · simp only [List.mem_singleton] at hm
        cases hm
        rw [hmod]
    · rw [List.mem_append] at hm
      rcases hm with hm | hm
      · exact absurd hm (hcomp rs n bp tb)
      · simp only [List.mem_singleton] at hm
        cases hm
        rw [hmod]
        have : S.records.length = 0 := by omega
        rw [this]
        rfl

/-- C3 counterexample: a single workout with a `duration` attribute pushes
two records but increments the accepted-record counter once, so the
terminal `complete` event carries 2 records while `totalAccepted mod B`
is `1 % 5000 = 1` — refuting the claimed final-batch cardinality. -/
theorem c3_counterexample :
    (runSession none none BATCH_SIZE 0 (SourceOutcome.success
      [SaxEvent.opentag "workout"
        [("workoutactivitytype", "Running"), ("startdate", "100"), ("enddate", "200"),
         ("duration", "30")],
       SaxEvent.closetag "workout"])).emitted =
      [Update.complete
        [{ type := some "HKWorkout", value := some "Running", unit := some "workout",
           startDate := some "100", endDate := some "200" },
         { type := some "HKWorkoutDuration", value := some "30", unit := some "min",
           startDate := some "100", endDate := some "200" }] 1 0 0] ∧
    (2 : Nat) ≠ 1 % BATCH_SIZE := by
  decide

/-- C3 witness: the amended theorem applied to a concrete workout-free
input with bound 2, whose single flushed batch has exactly 2 records. -/
theorem c3_witness :
    ([({ type := some "HKQuantityTypeIdentifierStepCount", value := some "1",
         unit := some "count", startDate := some "100", endDate := some "200" } :
          ParsedHealthData),
      ({ type := some "HKQuantityTypeIdentifierStepCount", value := some "2",
         unit := some "count", startDate := some "100", endDate := some "200" } :
          ParsedHealthData)].length = 2) :=
  (c3_batch_sizes none none 2 0
    [SaxEvent.opentag "record"
      [("type", "HKQuantityTypeIdentifierStepCount"), ("value", "1"), ("unit", "count"),
       ("startdate", "100"), ("enddate", "200")],
     SaxEvent.closetag "record",
     SaxEvent.opentag "record"
      [("type", "HKQuantityTypeIdentifierStepCount"), ("value", "2"), ("unit", "count"),
       ("startdate", "100"), ("enddate", "200")],
     SaxEvent.closetag "record"]
    (by decide) (by intro a hm; simp at hm)).1
    [{ type := some "HKQuantityTypeIdentifierStepCount", value := some "1",
       unit := some "count", startDate := some "100", endDate := some "200" },
     { type := some "HKQuantityTypeIdentifierStepCount", value := some "2",
       unit := some "count", startDate := some "100", endDate := some "200" }]
    2 0 0 (by decide)

/-- C4 (amended): a workout element that passes the date filter is
decomposed at open-time into at most TWO records sharing its start/end
timestamps — the workout itself (type `HKWorkout`) always, and a duration
record (type `HKWorkoutDuration`) exactly when the `duration` attribute is
truthy; the accepted-record counter is incremented once. Distance and
energy attributes produce no records. A workout with only an activity type
yields exactly one record. -/
theorem c4_workout_decomposition (sf ef : Option JsDate) (s : ParserState)
    (attributes : List (String × String))
    (h : isWithinDateRange sf ef (attributes.lookup "startdate") = true) :
    (opentagStep sf ef s "workout" attributes).recordsProcessed = s.recordsProcessed + 1 ∧
    ((opentagStep sf ef s "workout" attributes).records.take s.records.length = s.records) ∧
    ((opentagStep sf ef s "workout" attributes).records.drop s.records.length).map (·.type) =
      (if jsTruthy (attributes.lookup "duration") then
        [some "HKWorkout", some "HKWorkoutDuration"]
      else
        [some "HKWorkout"]) ∧
    (∀ r ∈ (opentagStep sf ef s "workout" attributes).records.drop s.records.length,
      r.startDate = attributes.lookup "startdate" ∧
      r.endDate = attributes.lookup "enddate") := by
  have hw : ("workout" : String) ≠ "record" := by decide
  simp only [opentagStep, if_neg hw, if_true, h, Bool.not_true, Bool.false_eq_true, if_false]
  rw [List.append_assoc]
  split_ifs with hd
  · refine ⟨trivial, List.take_left _ _, ?_, ?_⟩
    · show (List.drop s.records.length (s.records ++ _)).map (fun r => r.type) = _
      rw [List.drop_left]
      rfl
    · intro r hr
      rw [List.drop_left] at hr
      simp only [List.singleton_append, List.mem_cons, List.not_mem_nil, or_false] at hr
      rcases hr with rfl | rfl <;> exact ⟨rfl, rfl⟩
  · refine ⟨trivial, List.take_left _ _, ?_, ?_⟩
    · show (List.drop s.records.length (s.records ++ _)).map (fun r => r.type) = _
      rw [List.drop_left]
      rfl
    · intro r hr
      rw [List.drop_left] at hr
      simp only [List.append_nil, List.mem_singleton] at hr
      subst hr
      exact ⟨rfl, rfl⟩

/-- C4 counterexample: a workout carrying duration, total-distance and
total-energy-burned attributes yields exactly 2 records (workout and
duration), not the claimed 4 — no distance or energy record exists. -/
theorem c4_counterexample :
    ((opentagStep none none (initState 0) "workout"
      [("workoutactivitytype", "Running"), ("startdate", "100"), ("enddate", "200"),
       ("duration", "30"), ("durationunit", "min"), ("totaldistance", "5"),
       ("totaldistanceunit", "km"), ("totalenergyburned", "300"),
       ("totalenergyburnedunit", "kcal"), ("sourcename", "Watch")]).records.length = 2) ∧
    ((opentagStep none none (initState 0) "workout"
      [("workoutactivitytype", "Running"), ("startdate", "100"), ("enddate", "200"),
       ("duration", "30"), ("durationunit", "min"), ("totaldistance", "5"),
       ("totaldistanceunit", "km"), ("totalenergyburned", "300"),
       ("totalenergyburnedunit", "kcal"), ("sourcename", "Watch")]).records.map (·.type) =
      [some "HKWorkout", some "HKWorkoutDuration"]) := by
  decide

/-- C4 witness: the amended theorem applied to a workout with only an
activity type, yielding exactly one `HKWorkout` record. -/
theorem c4_witness :
    ((opentagStep none none (initState 0) "workout"
      [("workoutactivitytype", "Running"), ("startdate", "100"),
       ("enddate", "200")]).records.drop (initState 0).records.length).map (·.type) =
      [some "HKWorkout"] := by
  have := c4_workout_decomposition none none (initState 0)
    [("workoutactivitytype", "Running"), ("startdate", "100"), ("enddate", "200")]
    (by decide)
  rw [this.2.2.1]
  decide

/-- C5: for every input, the number of `Closed(\"record\")` events whose
in-flight candidate has truthy (non-empty) `type` and `value` equals the
number of measurement records delivered across all `record`-kind batches
plus the terminal `complete` event: no accepted record is dropped and none
is duplicated. -/
theorem c5_no_drop_no_dup (sf ef : Option JsDate) (batchBound totalBytes : Nat)
    (events : List SaxEvent) :
    measurementCount (deliveredRecords
      (runSession sf ef batchBound totalBytes (SourceOutcome.success events)).emitted) =
      acceptedCloseCount sf ef batchBound (initState totalBytes) events := by
  rw [runSession_success]
  show measurementCount (deliveredRecords (endPhase _).emitted) = _
  rw [endPhase_deliveredMeas]
  have := goodState_runEvents sf ef batchBound events (initState totalBytes)
    (goodState_init totalBytes)
  rw [this.2]
  have h0 : stateMeas (initState totalBytes) = 0 := rfl
  rw [h0, Nat.zero_add]

/-- C6 (amended): the progress check runs on EVERY closing-tag event, not
only after appends - a `progress` event is appended exactly when the
accepted-record counter is congruent to 0 modulo 5000 after the dispatch
phase (including a counter of 0, and repeatedly while the counter stays at
a multiple); the counter grows by one exactly on an accepting
`Closed(\"record\")`; opening-tag events never emit anything. -/
theorem c6_progress_cadence :
    (∀ (batchBound : Nat) (s : ParserState) (tagName : String),
      (closetagStep batchBound s tagName).emitted =
        if (closetagRecordPhase s tagName).recordsProcessed % 5000 = 0 then
          (flushPhase batchBound (closetagRecordPhase s tagName)).emitted ++
            [Update.progress (closetagRecordPhase s tagName).bytesProcessed
              (closetagRecordPhase s tagName).totalBytes
              (closetagRecordPhase s tagName).recordsProcessed]
        else
          (flushPhase batchBound (closetagRecordPhase s tagName)).emitted) ∧
    (∀ (s : ParserState) (tagName : String),
      (closetagRecordPhase s tagName).recordsProcessed =
        s.recordsProcessed +
          (if acceptClose s (SaxEvent.closetag tagName) then 1 else 0)) ∧
    (∀ (sf ef : Option JsDate) (s : ParserState) (name : String)
      (attributes : List (String × String)),
      (opentagStep sf ef s name attributes).emitted = s.emitted) := by
  refine ⟨?_, ?_, fun sf ef s name attributes => opentagStep_emitted sf ef s name attributes⟩
  · intro batchBound s tagName
    have hflush : ∀ s' : ParserState,
        (flushPhase batchBound s').recordsProcessed = s'.recordsProcessed ∧
        (flushPhase batchBound s').bytesProcessed = s'.bytesProcessed ∧
        (flushPhase batchBound s').totalBytes = s'.totalBytes := by
      intro s'
      simp only [flushPhase]
      split_ifs <;> exact ⟨rfl, rfl, rfl⟩
    obtain ⟨h1, h2, h3⟩ := hflush (closetagRecordPhase s tagName)
    simp only [closetagStep, progressPhase, h1, h2, h3]
    split_ifs <;> rfl
  · intro s tagName
    simp only [closetagRecordPhase, acceptClose]
    split_ifs with h1 h2 <;>
      simp_all [jsTruthy, Bool.and_eq_true, beq_iff_eq]

/-- C6 counterexample: closing an untracked element before any record has
been accepted emits a `progress` event at counter 0 — which is not a
positive multiple of the cadence reached by an append — refuting the
claimed firing condition. -/
theorem c6_counterexample :
    (runEvents none none BATCH_SIZE (initState 0) [SaxEvent.closetag "health"]).emitted =
      [Update.progress 0 0 0] ∧
    (runEvents none none BATCH_SIZE (initState 0)
      [SaxEvent.closetag "health"]).recordsProcessed = 0 := by
  decide

/-- C7: the date-range filter returns true for every record when neither
window bound is set; when bounds are set and the start timestamp parses to
a time value `t`, it returns true exactly when `t` is at least the window
start (when set) and at most the window end (when set) — so a timestamp
exactly equal to a bound is included (inclusive bounds). -/
theorem c7_inclusive_window (sf ef : Option Int) (sd : String) (t : Int)
    (h : jsDate sd = some t) :
    (∀ sd2 : Option String, isWithinDateRange none none sd2 = true) ∧
    (isWithinDateRange (sf.map some) (ef.map some) (some sd) = true ↔
      (∀ a, sf = some a → a ≤ t) ∧ (∀ b, ef = some b → t ≤ b)) := by
  have hrd : recordDateOf (some sd) = some t := h
  refine ⟨fun sd2 => rfl, ?_⟩
  cases sf <;> cases ef <;>
    simp [isWithinDateRange, hrd, jsDateLt, jsDateGt] <;> omega

/-- C7 witness: a record timestamp exactly equal to both window bounds is
included. -/
theorem c7_witness :
    isWithinDateRange (some (some 5)) (some (some 5)) (some "5") = true := by
  have := (c7_inclusive_window (some 5) (some 5) "5" 5 (by decide)).2
  simp only [Option.map_some] at this
  exact this.mpr (by constructor <;> intro x hx <;> (cases hx; omega))

/-- C8: on `Closed(\"record\")` while a candidate is in flight, the
candidate is appended and the accepted-record counter incremented if and
only if its `type` and `value` are both truthy (non-empty); the state
returns to Idle (flag cleared, candidate reset) regardless of acceptance;
and on an input whose record element is never closed (truncated before the
closing event), no measurement record is ever delivered. -/
theorem c8_close_acceptance :
    (∀ s : ParserState, s.isInRecord = true →
      (closetagRecordPhase s "record").isInRecord = false ∧
      (closetagRecordPhase s "record").currentRecord = {} ∧
      (jsTruthy s.currentRecord.type = true ∧ jsTruthy s.currentRecord.value = true →
        (closetagRecordPhase s "record").records = s.records ++ [s.currentRecord] ∧
        (closetagRecordPhase s "record").recordsProcessed = s.recordsProcessed + 1) ∧
      (¬(jsTruthy s.currentRecord.type = true ∧ jsTruthy s.currentRecord.value = true) →
        (closetagRecordPhase s "record").records = s.records ∧
        (closetagRecordPhase s "record").recordsProcessed = s.recordsProcessed)) ∧
    (∀ (sf ef : Option JsDate) (batchBound totalBytes : Nat)
      (events : List SaxEvent) (message : String),
      SaxEvent.closetag "record" ∉ events →
      measurementCount (deliveredRecords
        (runSession sf ef batchBound totalBytes
          (SourceOutcome.markupError events message)).emitted) = 0) := by
  constructor
  · intro s hin
    unfold closetagRecordPhase
    rw [if_pos (show ("record" : String) = "record" ∧ s.isInRecord = true from ⟨rfl, hin⟩)]
    dsimp only
    split_ifs with hv
    · exact ⟨rfl, rfl, fun _ => ⟨rfl, rfl⟩, fun hc => absurd hv hc⟩
    · exact ⟨rfl, rfl, fun hc => absurd hc hv, fun _ => ⟨rfl, rfl⟩⟩
  · intro sf ef batchBound totalBytes events message hno
    rw [runSession_markupError]
    show measurementCount (deliveredRecords (_ ++ [Update.error message])) = 0
    rw [deliveredRecords_append, measurementCount_append]
    have h0 : measurementCount (deliveredRecords [Update.error message]) = 0 := rfl
    rw [h0, Nat.add_zero]
    have hrun := goodState_runEvents sf ef batchBound events (initState totalBytes)
      (goodState_init totalBytes)
    have hz := acceptedCloseCount_zero sf ef batchBound events (initState totalBytes) hno
    have hmeas := hrun.2
    rw [hz] at hmeas
    have h1 : stateMeas (initState totalBytes) = 0 := rfl
    rw [h1] at hmeas
    have : stateMeas (runEvents sf ef batchBound (initState totalBytes) events) = 0 := hmeas
    rw [stateMeas] at this
    omega

/-- C8 witness: the theorem applied to a concrete in-flight candidate with
truthy type and value, and to a concrete truncated input whose record open
is never closed. -/
theorem c8_witness :
    ((closetagRecordPhase
      { currentRecord :=
          { type := some "HKQuantityTypeIdentifierStepCount", value := some "72",
            unit := some "count", startDate := some "100", endDate := some "200" },
        isInRecord := true } "record").recordsProcessed = 0 + 1) ∧
    measurementCount (deliveredRecords
      (runSession none none BATCH_SIZE 0
        (SourceOutcome.markupError
          [SaxEvent.opentag "record"
            [("type", "HKQuantityTypeIdentifierStepCount"), ("value", "72"),
             ("startdate", "100"), ("enddate", "200")]]
          "Unexpected end of input")).emitted) = 0 :=
  ⟨((c8_close_acceptance.1
      { currentRecord :=
          { type := some "HKQuantityTypeIdentifierStepCount", value := some "72",
            unit := some "count", startDate := some "100", endDate := some "200" },
        isInRecord := true } rfl).2.2.1 ⟨by decide, by decide⟩).2,
   c8_close_acceptance.2 none none BATCH_SIZE 0
     [SaxEvent.opentag "record"
       [("type", "HKQuantityTypeIdentifierStepCount"), ("value", "72"),
        ("startdate", "100"), ("enddate", "200")]]
     "Unexpected end of input" (by decide)⟩

/-- C9: the `isInWorkout` flag is write-only — stepping any event from two
states differing only in that flag produces states that again differ at
most in that flag, and record open/close events never change it; hence
record handling is identical inside and outside a workout element. -/
theorem c9_workout_flag_independence (sf ef : Option JsDate) (batchBound : Nat) :
    (∀ (s : ParserState) (b : Bool) (e : SaxEvent),
      forgetWorkoutFlag (step sf ef batchBound { s with isInWorkout := b } e) =
        forgetWorkoutFlag (step sf ef batchBound s e)) ∧
    (∀ (s : ParserState) (attributes : List (String × String)),
      (step sf ef batchBound s (SaxEvent.opentag "record" attributes)).isInWorkout =
        s.isInWorkout) ∧
    (∀ s : ParserState,
      (step sf ef batchBound s (SaxEvent.closetag "record")).isInWorkout =
        s.isInWorkout) := by
  refine ⟨?_, ?_, ?_⟩
  · intro s b e
    cases e with
    | opentag name attributes =>
        simp only [step, opentagStep, forgetWorkoutFlag]
        split_ifs <;> rfl
    | closetag tagName =>
        simp only [step, closetagStep, progressPhase, flushPhase, closetagRecordPhase,
          forgetWorkoutFlag]
        split_ifs <;> rfl
  · intro s attributes
    simp only [step, opentagStep]
    split_ifs <;>
      first
      | rfl
      | exact absurd ‹("record" : String) = "workout"› (by decide)
  · intro s
    simp only [step, closetagStep, progressPhase, flushPhase, closetagRecordPhase]
    split_ifs <;>
      first
      | rfl
      | exact absurd ‹("record" : String) = "workout"› (by decide)

/-- C10: a record element whose `type` attribute is absent or not a
recognized metric-type identifier is rejected with the state left
completely unchanged (and the handler is total, so no error is raised);
consequently every delivered record is either workout-derived (synthetic
`HKWorkout`/`HKWorkoutDuration` tag) or carries a type from the
`HEALTH_DATA_TYPES` vocabulary. -/
theorem c10_type_vocabulary :
    (∀ (sf ef : Option JsDate) (s : ParserState) (attributes : List (String × String)),
      (attributes.lookup "type").elim false isRelevantType = false →
      opentagStep sf ef s "record" attributes = s) ∧
    (∀ (sf ef : Option JsDate) (batchBound totalBytes : Nat) (events : List SaxEvent),
      ∀ r ∈ deliveredRecords
        (runSession sf ef batchBound totalBytes (SourceOutcome.success events)).emitted,
        isWorkoutDerived r = true ∨ ∃ t, r.type = some t ∧ isRelevantType t = true) := by
  constructor
  · intro sf ef s attributes h
    simp only [opentagStep, if_true, h, Bool.not_false, Bool.true_or, if_pos rfl]
  · intro sf ef batchBound totalBytes events r hr
    rw [runSession_success] at hr
    have hrun := goodState_runEvents sf ef batchBound events (initState totalBytes)
      (goodState_init totalBytes)
    obtain ⟨hcand, hrecs, hemit⟩ := hrun.1
    show goodRecord r
    rw [show (SessionResult.mk
      (endPhase (runEvents sf ef batchBound (initState totalBytes) events)).emitted
      true).emitted =
      (endPhase (runEvents sf ef batchBound (initState totalBytes) events)).emitted from rfl] at hr
    revert hr
    generalize hS : runEvents sf ef batchBound (initState totalBytes) events = S at *
    intro hr
    simp only [endPhase] at hr
    split_ifs at hr with hlen
    · rw [mem_deliveredRecords] at hr
      obtain ⟨u, hu, hru⟩ := hr
      rw [List.mem_append] at hu
      rcases hu with hu | hu
      · exact hemit u hu r hru
      · simp only [List.mem_singleton] at hu
        subst hu
        exact hrecs r hru
    · rw [mem_deliveredRecords] at hr
      obtain ⟨u, hu, hru⟩ := hr
      rw [List.mem_append] at hu
      rcases hu with hu | hu
      · exact hemit u hu r hru
      · simp only [List.mem_singleton] at hu
        subst hu
        cases hru

/-- C10 witness: the theorem applied to a concrete rejected record open
with an unrecognized type and to a concrete delivered measurement
record. -/
theorem c10_witness :
    (opentagStep none none (initState 0) "record" [("type", "NotAHealthType")] =
      initState 0) ∧
    (isWorkoutDerived
      { type := some "HKQuantityTypeIdentifierStepCount", value := some "72",
        unit := none, startDate := some "100", endDate := some "200",
        sourceName := none, sourceVersion := none } = true ∨
      ∃ t, ({ type := some "HKQuantityTypeIdentifierStepCount", value := some "72",
              unit := none, startDate := some "100", endDate := some "200",
              sourceName := none, sourceVersion := none } : ParsedHealthData).type =
          some t ∧ isRelevantType t = true) :=
  ⟨c10_type_vocabulary.1 none none (initState 0) [("type", "NotAHealthType")] (by decide),
   c10_type_vocabulary.2 none none BATCH_SIZE 0
     [SaxEvent.opentag "record"
       [("type", "HKQuantityTypeIdentifierStepCount"), ("value", "72"),
        ("startdate", "100"), ("enddate", "200")],
      SaxEvent.closetag "record"]
     { type := some "HKQuantityTypeIdentifierStepCount", value := some "72",
       unit := none, startDate := some "100", endDate := some "200",
       sourceName := none, sourceVersion := none } (by decide)⟩
